import Mathlib

/-!
Shallow embedding of the gitignore-style path filter implemented by
`get_non_gitignore_files` in `src/prompt_builder.py`, together with the
pieces of the Python standard library it relies on (`str.strip`,
`str.startswith`, `str.endswith`, slicing, `fnmatch.fnmatch`).  Paths and
patterns are modelled as Lean `String`s; the filesystem is modelled as the
ordered list of regular files that `os.walk('.')` visits, each given by its
list of path components relative to the root (POSIX separator `/`,
case-sensitive names).
-/

/-- Python `str.isspace` for a single character (restricted to the ASCII
whitespace that Lean's `Char.isWhitespace` recognises; gitignore files do not
use the remaining exotic whitespace characters). -/
def pyIsSpace (c : Char) : Bool := c.isWhitespace

/-- Python `str.strip()` on the underlying character list: remove leading and
trailing whitespace. -/
def trimChars (cs : List Char) : List Char :=
  ((cs.dropWhile pyIsSpace).reverse.dropWhile pyIsSpace).reverse

/-- Python `str.strip()`. -/
def pyStrip (s : String) : String := ⟨trimChars s.data⟩

/-- List-level prefix test (used to model Python `str.startswith`). -/
def isPrefixOfList : List Char → List Char → Bool
  | [], _ => true
  | _ :: _, [] => false
  | a :: as, b :: bs => (a == b) && isPrefixOfList as bs

/-- Python `s.startswith(p)`. -/
def pyStartsWith (s p : String) : Bool := isPrefixOfList p.data s.data

/-- List-level suffix test (used to model Python `str.endswith`). -/
def isSuffixOfList (p s : List Char) : Bool := isPrefixOfList p.reverse s.reverse

/-- Python `s.endswith(p)`. -/
def pyEndsWith (s p : String) : Bool := isSuffixOfList p.data s.data

/-- Python `s[1:]`. -/
def pyDropFirst (s : String) : String := ⟨s.data.drop 1⟩

/-- Python `s[:-1]`. -/
def pyDropLast (s : String) : String := ⟨s.data.dropLast⟩

/-- Python `'/' in s`. -/
def pyContainsSlash (s : String) : Bool := s.data.contains '/'

/-- Membership test for the body of an `fnmatch` character class `[...]`:
`a-b` denotes an inclusive code-point range, any other character is a literal
member (a trailing `-` is literal, as in the regex class Python's
`fnmatch.translate` produces). -/
def classMatches : List Char → Char → Bool
  | [], _ => false
  | a :: '-' :: b :: rest, c =>
    (a.val ≤ c.val && c.val ≤ b.val) || classMatches rest c
  | a :: rest, c => (a == c) || classMatches rest c

/-- Split a character list at the first `]`, returning the part before it and
the part after it, or `none` when there is no `]`. -/
def breakRBracket : List Char → Option (List Char × List Char)
  | [] => none
  | ']' :: rest => some ([], rest)
  | c :: rest => (breakRBracket rest).map (fun p => (c :: p.1, p.2))

/-- Parse an `fnmatch` character class from the characters following `[`:
a leading `!` negates the class, and a `]` immediately after `[` or `[!` is a
literal member rather than the terminator (exactly the scanning done by
Python's `fnmatch.translate`).  Returns `(negated, class body, remainder of
the pattern)`, or `none` when the class is unterminated (in which case the
`[` is matched literally). -/
def splitClass : List Char → Option (Bool × List Char × List Char)
  | '!' :: ']' :: rest =>
    (breakRBracket rest).map (fun p => (true, ']' :: p.1, p.2))
  | '!' :: rest => (breakRBracket rest).map (fun p => (true, p.1, p.2))
  | ']' :: rest => (breakRBracket rest).map (fun p => (false, ']' :: p.1, p.2))
  | rest => (breakRBracket rest).map (fun p => (false, p.1, p.2))

/-- Core glob matcher for Python `fnmatch.fnmatchcase pat name`: `*` matches
any (possibly empty) run of characters, `?` any single character, `[...]` a
character class, every other character itself; the whole name must be
consumed.  The `fuel` argument only serves to make the recursion structural:
every recursive call strictly shrinks the pattern, so any fuel larger than the
pattern length gives the true answer (`globMatch` below passes
`pattern.length + 1`, and the zero-fuel branch is unreachable). -/
def globMatchAux : Nat → List Char → List Char → Bool
  | 0, _, _ => false
  | fuel + 1, p, s =>
    match p, s with
    | [], s => s.isEmpty
    | '*' :: ps, s => s.tails.any (fun t => globMatchAux fuel ps t)
    | '?' :: ps, s =>
      match s with
      | [] => false
      | _ :: cs => globMatchAux fuel ps cs
    | '[' :: ps, s =>
      match splitClass ps with
      | some (neg, cls, rest) =>
        match s with
        | [] => false
        | c :: cs => (classMatches cls c != neg) && globMatchAux fuel rest cs
      | none =>
        match s with
        | [] => false
        | c :: cs => (c == '[') && globMatchAux fuel ps cs
    | pc :: ps, s =>
      match s with
      | [] => false
      | c :: cs => (pc == c) && globMatchAux fuel ps cs

/-- Glob match of a pattern against a whole character list. -/
def globMatch (p s : List Char) : Bool := globMatchAux (p.length + 1) p s

/-- Python `fnmatch.fnmatch(name, pat)` on a POSIX system, where
`os.path.normcase` is the identity, so matching is case-sensitive. -/
def fnmatch (name pat : String) : Bool := globMatch pat.data name.data


/-- One iteration of the pattern loop of `get_non_gitignore_files`
(`src/prompt_builder.py`, lines 42-72) on a single pattern: a leading `!`
marks a negation and is stripped; a trailing `/` (checked after the `!`
strip) marks a directory-only pattern, which is stripped and, when the
candidate is not a directory, skipped (`continue`); a leading `/` is stripped
and the rest is glob-matched against the full relative path; a pattern
containing `/` is glob-matched against the full relative path; any other
pattern `p` is glob-matched as `*p*`.  Result: `none` when the iteration
falls through to the next pattern (skipped or not matched), `some v` when the
loop body sets `should_ignore` to `v` and breaks (`v = true` for a plain
match, `v = false` for a negated match). -/
def patternVerdict (pat fp : String) (isDir : Bool) : Option Bool :=
  let isNeg := pyStartsWith pat "!"
  let p1 := if isNeg then pyDropFirst pat else pat
  let isDirOnly := pyEndsWith p1 "/"
  if isDirOnly && !isDir then
    none
  else
    let p2 := if isDirOnly then pyDropLast p1 else p1
    let m :=
      if pyStartsWith p2 "/" then fnmatch fp (pyDropFirst p2)
      else if pyContainsSlash p2 then fnmatch fp p2
      else fnmatch fp ("*" ++ p2 ++ "*")
    if m then some (!isNeg) else none

/-- The pattern loop of `get_non_gitignore_files` (`src/prompt_builder.py`,
lines 41-72): `should_ignore` starts `False`; each pattern is processed by
`patternVerdict`, and both match branches `break` out of the loop, so the
result is the verdict of the first pattern that matches (and `false` when no
pattern matches). -/
def is_excluded : List String → String → Bool → Bool
  | [], _, _ => false
  | pat :: rest, fp, isDir =>
    match patternVerdict pat fp isDir with
    | some v => v
    | none => is_excluded rest fp isDir

/-- The `.gitignore` read of `src/prompt_builder.py`, line 32: keep the lines
that are non-empty after stripping AND whose raw (unstripped) form does not
start with `#`, each stripped, in file order.  The input is the file's lines
without their trailing newline (stripping removes the newline anyway, and
`line.startswith('#')` is unaffected by it). -/
def load_ignore_patterns : List String → List String
  | [] => []
  | line :: rest =>
    if (pyStrip line != "") && !(pyStartsWith line "#") then
      pyStrip line :: load_ignore_patterns rest
    else load_ignore_patterns rest

/-- A filesystem snapshot as seen by the walk of `src/prompt_builder.py`,
lines 15-24: the regular files under the root `.`, each as its non-empty list
of path components relative to the root, in the order `os.walk` visits them.
Only regular files occur here (`os.walk` reports directories separately and
the code only collects the `files` entries), so `os.path.isdir` is `False`
for every listed path. -/
structure FileSystem where
  files : List (List String)

/-- The relative path string of a component list (`os.path.join` followed by
`os.path.relpath(·, '.')` yields the components joined by the POSIX
separator). -/
def joinPath (p : List String) : String := String.intercalate "/" p

/-- The walk of `src/prompt_builder.py`, lines 15-24: every regular file is
collected except those under a directory whose walk root contains `.git` as a
component.  For a file with relative components `c₁/…/cₙ` the walk root is
`./c₁/…/cₙ₋₁`, whose `os.path.sep` split is `['.', c₁, …, cₙ₋₁]`, so the file
is skipped exactly when `.git` occurs among its components other than the
last (the last component is the file's own name, which is never part of the
walk root).  `os.walk` does not prune, so files below a skipped directory are
still visited, and are themselves skipped by the same test. -/
def enumerate_candidates (fs : FileSystem) : List (List String) :=
  fs.files.filter (fun p => !(p.dropLast.contains ".git"))

/-- The `.lock` filter applied in both branches of `get_non_gitignore_files`
(`src/prompt_builder.py`, lines 28 and 38-39). -/
def dropLockFiles (cands : List String) : List String :=
  cands.filter (fun f => !(pyEndsWith f ".lock"))

/-- The per-file keep decision in the `.gitignore` branch of
`get_non_gitignore_files` (`src/prompt_builder.py`, lines 36-76): `.lock`
files are skipped before the pattern loop even runs, and the remaining files
are kept exactly when the pattern loop does not exclude them.  Every
candidate is a regular file, so `os.path.isdir` is `False` and the loop runs
with `is_directory = false`. -/
def keep_file (pats : List String) (f : String) : Bool :=
  !(pyEndsWith f ".lock") && !(is_excluded pats f false)

/-- The `.gitignore` branch of `get_non_gitignore_files` as a function of the
already-enumerated relative paths and the already-loaded pattern list. -/
def filtered_files_core (cands pats : List String) : List String :=
  cands.filter (keep_file pats)

/-- `get_non_gitignore_files` of `src/prompt_builder.py` in full:
`gitignoreLines` is `none` when no `.gitignore` file exists at the root
(line 27) and `some` the file's lines otherwise.  Without a `.gitignore` the
only filtering is the `.lock` drop (line 28); with one, each candidate is
kept when it is not a `.lock` file and the pattern loop does not exclude it. -/
def filtered_files (fs : FileSystem) (gitignoreLines : Option (List String)) :
    List String :=
  let cands := (enumerate_candidates fs).map joinPath
  match gitignoreLines with
  | none => dropLockFiles cands
  | some lines => filtered_files_core cands (load_ignore_patterns lines)

/-- The source's own name for the whole operation. -/
def get_non_gitignore_files := filtered_files

/-- Modelled from the spec's wording of `is_excluded` (claim C1, for
comparison with the code): iterate ALL patterns in order, every matching
pattern overwrites the running verdict, the last matching pattern wins, and
the default with no match is `false` (included). -/
def is_excluded_lastwins (pats : List String) (fp : String) (isDir : Bool) :
    Bool :=
  pats.foldl (fun acc pat => (patternVerdict pat fp isDir).getD acc) false

/-- First-match-wins semantics, stated independently of the loop: the verdict
of the first pattern that matches, `false` (included) when none matches. -/
def is_excluded_firstwins (pats : List String) (fp : String) (isDir : Bool) :
    Bool :=
  (pats.findSome? (fun pat => patternVerdict pat fp isDir)).getD false

/-- Modelled from the spec's wording of `load_ignore_patterns` (claim C3, for
comparison with the code): trim each line, keep the lines that are non-empty
after trimming and whose TRIMMED form does not start with `#`. -/
def load_ignore_patterns_spec (lines : List String) : List String :=
  (lines.map pyStrip).filter (fun l => (l != "") && !(pyStartsWith l "#"))


/-- A singleton list is a prefix exactly of the lists starting with its
element. -/
theorem isPrefixOfList_single (c : Char) (l : List Char) :
    isPrefixOfList [c] l = true ↔ ∃ t, l = c :: t := by
  cases l with
  | nil => simp [isPrefixOfList]
  | cons x xs =>
    constructor
    · intro h
      have h' : (c == x) = true := by
        simp only [isPrefixOfList, Bool.and_eq_true] at h
        exact h.1
      exact ⟨xs, by rw [eq_of_beq h']⟩
    · rintro ⟨t, ht⟩
      rw [List.cons.injEq] at ht
      simp [isPrefixOfList, ht.1]

/-- Ending in `/` is preserved when a leading `!` is removed. -/
theorem endsSlash_tail (t : List Char)
    (h : isSuffixOfList ['/'] ('!' :: t) = true) :
    isSuffixOfList ['/'] t = true := by
  simp only [isSuffixOfList, List.reverse_cons, List.reverse_nil,
    List.nil_append] at h ⊢
  cases htr : t.reverse with
  | nil =>
    rw [htr] at h
    exact absurd h (by decide)
  | cons y ys =>
    rw [htr, List.cons_append] at h
    obtain ⟨r, hr⟩ := (isPrefixOfList_single '/' _).mp h
    rw [List.cons.injEq] at hr
    rw [hr.1]
    simp [isPrefixOfList]

/-- Ending in `/` is preserved when any character is put back in front. -/
theorem endsSlash_cons (c : Char) (t : List Char)
    (h : isSuffixOfList ['/'] t = true) :
    isSuffixOfList ['/'] (c :: t) = true := by
  simp only [isSuffixOfList, List.reverse_cons, List.reverse_nil,
    List.nil_append] at h ⊢
  obtain ⟨r, hr⟩ := (isPrefixOfList_single '/' _).mp h
  rw [hr, List.cons_append]
  simp [isPrefixOfList]

/-- Trailing-`/` detection is unchanged by the `!` strip of the loop. -/
theorem endsSlash_strip (pat : String) :
    pyEndsWith (if pyStartsWith pat "!" then pyDropFirst pat else pat) "/"
      = pyEndsWith pat "/" := by
  by_cases hneg : pyStartsWith pat "!" = true
  · rw [if_pos hneg]
    obtain ⟨t, ht⟩ :=
      (isPrefixOfList_single '!' pat.data).mp hneg
    have e1 : pyEndsWith (pyDropFirst pat) "/"
        = isSuffixOfList ['/'] (pat.data.drop 1) := rfl
    have e2 : pyEndsWith pat "/" = isSuffixOfList ['/'] pat.data := rfl
    rw [e1, e2, ht, List.drop_succ_cons, List.drop_zero]
    cases hl : isSuffixOfList ['/'] ('!' :: t) with
    | true => rw [endsSlash_tail t hl]
    | false =>
      cases hr : isSuffixOfList ['/'] t with
      | false => rfl
      | true =>
        rw [endsSlash_cons '!' t hr] at hl
        exact absurd hl (by decide)
  · rw [if_neg hneg]

/-- A directory-only pattern (trailing `/`) is skipped when the candidate is
not a directory: its loop iteration falls through. -/
theorem patternVerdict_dirOnly_none (pat fp : String)
    (h : pyEndsWith pat "/" = true) :
    patternVerdict pat fp false = none := by
  have hp1 : pyEndsWith (if pyStartsWith pat "!" then pyDropFirst pat else pat)
      "/" = true := by rw [endsSlash_strip, h]
  simp only [patternVerdict, hp1]
  simp

/-- A pattern with a leading `/` (and no trailing `/`) is never a negation
and is never directory-only, so its loop iteration glob-matches the pattern
minus the leading `/` against the full relative path and breaks with the
exclude verdict exactly on a match. -/
theorem patternVerdict_anchored (p fp : String) (d : Bool)
    (h1 : pyStartsWith p "/" = true) (h2 : pyEndsWith p "/" = false) :
    patternVerdict p fp d
      = if fnmatch fp (pyDropFirst p) then some true else none := by
  obtain ⟨t, ht⟩ := (isPrefixOfList_single '/' p.data).mp h1
  have hneg : pyStartsWith p "!" = false := by
    cases hb : pyStartsWith p "!" with
    | false => rfl
    | true =>
      obtain ⟨t2, ht2⟩ := (isPrefixOfList_single '!' p.data).mp hb
      rw [ht, List.cons.injEq] at ht2
      exact absurd ht2.1 (by decide)
  simp [patternVerdict, hneg, h2, h1]

/-- The loop result is the verdict of the first matching pattern. -/
theorem is_excluded_eq_firstwins (pats : List String) (fp : String)
    (d : Bool) : is_excluded pats fp d = is_excluded_firstwins pats fp d := by
  induction pats with
  | nil => rfl
  | cons pat rest ih =>
    simp only [is_excluded, is_excluded_firstwins, List.findSome?_cons]
    cases patternVerdict pat fp d with
    | none => simpa [is_excluded_firstwins] using ih
    | some v => rfl

/-- Dropping the directory-only patterns does not change the loop result on a
non-directory candidate. -/
theorem is_excluded_filter_noSlash (pats : List String) (fp : String) :
    is_excluded (pats.filter (fun p => !(pyEndsWith p "/"))) fp false
      = is_excluded pats fp false := by
  induction pats with
  | nil => rfl
  | cons pat rest ih =>
    cases h : pyEndsWith pat "/" with
    | true =>
      rw [List.filter_cons]
      simp only [h, Bool.not_true, Bool.false_eq_true, if_false]
      rw [ih]
      conv_rhs => rw [is_excluded]
      rw [patternVerdict_dirOnly_none pat fp h]
    | false =>
      rw [List.filter_cons]
      simp only [h, Bool.not_false, if_true]
      rw [is_excluded, is_excluded, ih]

/-- C1 (counterexample): the pattern loop does NOT implement last-match-wins.
With patterns `["!a.txt", "a.txt"]` the file `a.txt` matches the first
(negated) pattern, the loop breaks, and the file is included (`false`);
under the claimed last-match-wins semantics the final matching pattern
`"a.txt"` would win and the file would be excluded (`true`). -/
theorem c1_last_match_fails :
    is_excluded ["!a.txt", "a.txt"] "a.txt" false = false ∧
    is_excluded_lastwins ["!a.txt", "a.txt"] "a.txt" false = true := by
  constructor <;> decide

/-- C1 (amended): `is_excluded` applies patterns in file order with
FIRST-match-wins semantics — iteration breaks at the first matching pattern,
whose verdict (exclude if not negated, include if negated) is final, and a
file matched by no pattern is included; for the pattern list
`["*.tmp", "!important.tmp", "*.tmp"]` the file `important.tmp` is excluded
(already by the first pattern). -/
theorem c1_first_match_wins :
    (∀ (pats : List String) (fp : String) (d : Bool),
        is_excluded pats fp d = is_excluded_firstwins pats fp d) ∧
    is_excluded ["*.tmp", "!important.tmp", "*.tmp"] "important.tmp" false
      = true := by
  refine ⟨fun pats fp d => is_excluded_eq_firstwins pats fp d, ?_⟩
  decide

/-- C2 (counterexample): with patterns `["*.log", "!keep.log"]` the file
`keep.log` is NOT included: the first pattern `*.log` matches and the loop
breaks with the exclude verdict before the negation is examined. -/
theorem c2_keep_log_not_included :
    "keep.log" ∉
      filtered_files ⟨[["keep.log"], ["debug.log"]]⟩
        (some ["*.log", "!keep.log"]) := by
  decide

/-- C2 (amended): given the pattern list `["*.log", "!keep.log"]`, filtering
excludes BOTH `keep.log` and `debug.log`: each matches the first pattern
`*.log`, which breaks the loop, so the later negation pattern never takes
effect. -/
theorem c2_first_match_excludes_both :
    filtered_files ⟨[["keep.log"], ["debug.log"]]⟩
      (some ["*.log", "!keep.log"]) = [] := by
  decide

/-- C3 (counterexample): the comment check is on the RAW line, so the line
`"  #x"` (whitespace before `#`) is NOT removed — it is kept as the pattern
`"#x"` — whereas under the claimed trimmed-form check it would be removed. -/
theorem c3_whitespace_hash_kept :
    load_ignore_patterns ["  #x"] = ["#x"] ∧
    load_ignore_patterns_spec ["  #x"] = [] := by
  constructor <;> decide

/-- C3 (amended): `load_ignore_patterns` reads the lines in order and keeps
exactly the lines that are non-empty after trimming and whose UNTRIMMED form
does not start with `#`, each trimmed, preserving file order; in particular a
line consisting of whitespace followed by `#` is kept (as its trimmed form),
not treated as a comment. -/
theorem c3_raw_line_comment_check :
    (∀ lines : List String,
        load_ignore_patterns lines
          = (lines.filter
              (fun l => (pyStrip l != "") && !(pyStartsWith l "#"))).map
              pyStrip) ∧
    load_ignore_patterns ["  #x"] = ["#x"] := by
  constructor
  · intro lines
    induction lines with
    | nil => rfl
    | cons l rest ih =>
      rw [load_ignore_patterns, List.filter_cons]
      cases h : (pyStrip l != "") && !(pyStartsWith l "#") with
      | true => simp [ih]
      | false => simp [ih]
  · decide

/-- C4 (counterexample): the walk only skips `.git` appearing among the
DIRECTORY components of a path; a regular file literally named `.git` (as in
a git worktree or submodule checkout) is yielded even though its relative
path consists of the component `.git`. -/
theorem c4_git_file_enumerated :
    [".git"] ∈ enumerate_candidates ⟨[[".git"]]⟩ := by
  decide

/-- C4 (amended): `enumerate_candidates` never yields a path having `.git`
among its directory components (every component except the last, which is the
file's own name), regardless of the ignore pattern list; a regular file named
`.git` itself may still be yielded. -/
theorem c4_git_dir_component_skipped (fs : FileSystem) (p : List String)
    (h : p ∈ enumerate_candidates fs) : ".git" ∉ p.dropLast := by
  rcases List.mem_filter.mp h with ⟨-, hcond⟩
  intro hmem
  simp at hcond
  exact hcond hmem

/-- C4 (witness): instantiation of the amended theorem on the concrete
filesystem containing the single file `a/b.txt`. -/
theorem c4_git_dir_component_skipped_wit :
    ".git" ∉ (["a", "b.txt"] : List String).dropLast :=
  c4_git_dir_component_skipped ⟨[["a", "b.txt"]]⟩ ["a", "b.txt"] (by decide)

/-- C5: every file whose relative path ends in `.lock` is excluded from the
output, for every filesystem and every ignore-spec state (present with any
content, or absent): both branches of `get_non_gitignore_files` drop `.lock`
files before any pattern (even a negation) is consulted. -/
theorem c5_lock_always_excluded (fs : FileSystem)
    (g : Option (List String)) (f : String)
    (h : pyEndsWith f ".lock" = true) : f ∉ filtered_files fs g := by
  intro hmem
  cases g with
  | none =>
    simp only [filtered_files, dropLockFiles] at hmem
    rcases List.mem_filter.mp hmem with ⟨-, hcond⟩
    rw [h] at hcond
    exact absurd hcond (by decide)
  | some lines =>
    simp only [filtered_files, filtered_files_core] at hmem
    rcases List.mem_filter.mp hmem with ⟨-, hcond⟩
    rw [keep_file, h] at hcond
    simp at hcond

/-- C5 (witness): the lock file `a.lock` is dropped both without a
`.gitignore` and with one whose negation pattern would otherwise match it. -/
theorem c5_lock_always_excluded_wit :
    "a.lock" ∉ filtered_files ⟨[["a.lock"], ["b.txt"]]⟩ (some ["!a.lock"]) :=
  c5_lock_always_excluded ⟨[["a.lock"], ["b.txt"]]⟩ (some ["!a.lock"])
    "a.lock" (by decide)

/-- C6: when no ignore-spec file exists, the output is exactly the enumerated
files minus those ending in `.lock`, in enumeration order, with no other
exclusion applied. -/
theorem c6_no_gitignore_only_lock_filter (fs : FileSystem) :
    filtered_files fs none
      = ((enumerate_candidates fs).map joinPath).filter
          (fun f => !(pyEndsWith f ".lock")) := rfl

/-- C7: a pattern with a leading `/` is anchored to the root — the `/` is
stripped and the rest is glob-matched against the full relative path (such a
pattern can be neither a negation nor directory-only, and its iteration
breaks with the exclude verdict exactly on a match); consequently
`"/config.json"` excludes the root-level file `config.json` but does not
exclude `src/config.json`. -/
theorem c7_anchored :
    (∀ (p fp : String) (d : Bool),
        pyStartsWith p "/" = true → pyEndsWith p "/" = false →
        patternVerdict p fp d
          = if fnmatch fp (pyDropFirst p) then some true else none) ∧
    is_excluded ["/config.json"] "config.json" false = true ∧
    is_excluded ["/config.json"] "src/config.json" false = false := by
  refine ⟨fun p fp d h1 h2 => patternVerdict_anchored p fp d h1 h2, ?_, ?_⟩
    <;> decide

/-- C7 (witness): instantiation of the anchoring conjunct on the concrete
pattern `"/config.json"` and path `"src/config.json"`. -/
theorem c7_anchored_wit :
    patternVerdict "/config.json" "src/config.json" false
      = if fnmatch "src/config.json" (pyDropFirst "/config.json") then
          some true
        else none :=
  c7_anchored.1 "/config.json" "src/config.json" false (by decide)
    (by decide)

/-- C8: a pattern with a trailing `/` is directory-only: when the candidate's
`is_directory` flag is false the pattern's iteration is skipped, leaving the
loop result that of the remaining patterns; in particular `"build/"` does not
exclude a regular file named `build`, while it does exclude a directory named
`build`. -/
theorem c8_dir_only :
    (∀ (pat : String) (rest : List String) (fp : String),
        pyEndsWith pat "/" = true →
        is_excluded (pat :: rest) fp false = is_excluded rest fp false) ∧
    is_excluded ["build/"] "build" false = false ∧
    is_excluded ["build/"] "build" true = true := by
  refine ⟨fun pat rest fp h => ?_, ?_, ?_⟩
  · rw [is_excluded, patternVerdict_dirOnly_none pat fp h]
  · decide
  · decide

/-- C8 (witness): instantiation of the skip conjunct — prepending the
directory-only pattern `"build/"` leaves the decision for the regular file
`app.log` to the remaining pattern list. -/
theorem c8_dir_only_wit :
    is_excluded ["build/", "*.log"] "app.log" false
      = is_excluded ["*.log"] "app.log" false :=
  c8_dir_only.1 "build/" ["*.log"] "app.log" (by decide)

/-- C9: `filtered_files` is deterministic — it is a pure function of the
filesystem snapshot and the ignore-spec contents, so two invocations on equal
inputs produce identical ordered outputs. -/
theorem c9_deterministic (fs₁ fs₂ : FileSystem)
    (g₁ g₂ : Option (List String)) (h1 : fs₁ = fs₂) (h2 : g₁ = g₂) :
    filtered_files fs₁ g₁ = filtered_files fs₂ g₂ := by
  rw [h1, h2]

/-- C9 (witness): two runs on the same one-file snapshot agree. -/
theorem c9_deterministic_wit :
    filtered_files ⟨[["a.txt"]]⟩ none = filtered_files ⟨[["a.txt"]]⟩ none :=
  c9_deterministic ⟨[["a.txt"]]⟩ ⟨[["a.txt"]]⟩ none none rfl rfl

/-- C10: directory-only patterns never affect the output — every candidate
is a regular file, so the pattern loop always runs with
`is_directory = false`, and removing every pattern ending in `/` from the
ignore pattern list leaves the filtered output unchanged. -/
theorem c10_dir_only_patterns_irrelevant (cands pats : List String) :
    filtered_files_core cands (pats.filter (fun p => !(pyEndsWith p "/")))
      = filtered_files_core cands pats := by
  have hk : keep_file (pats.filter (fun p => !(pyEndsWith p "/")))
      = keep_file pats := by
    funext f
    rw [keep_file, keep_file, is_excluded_filter_noSlash]
  rw [filtered_files_core, filtered_files_core, hk]
